import Mathlib

/-!
Verification of the natural-language specification of the llm_engineering
repository (five tutorial scripts: hello_world.py, openai_client.py,
multi_provider_llm.py, token_tracking.py, web_scraper.py) against a shallow
embedding of the relevant code in Lean 4.

Conventions of the embedding:
- a tiktoken encoding object is modelled as an abstract pure function
  `String → List Nat` (a tokenizer mapping text to a token sequence);
- Python strings are modelled as Lean `String`, except in the web-scraper
  slicing code where `List Char` makes character-level slicing `[:2000]`
  (`List.take 2000`) directly provable;
- environment lookup `os.getenv` is modelled as a function
  `String → Option String` (unset variable ↦ `Option.none`);
- side effects of the scripts (prints, outbound network calls) are recorded
  in an explicit effect trace returned alongside the result.
-/

namespace LLMEng

/-- A chat message: a role/content pair, as in the Python dicts
`{"role": ..., "content": ...}` used throughout the scripts. -/
structure Message where
  role : String
  content : String
deriving DecidableEq, Repr

/-!
## Token Estimator (token_tracking.py)
-/

/-- The flattening loop of `calculate_input_tokens` in token_tracking.py:
`input_text = ""` followed by
`for message in messages: input_text += message["role"] + ": " + message["content"] + "\n"`. -/
def flattenConversation (messages : List Message) : String :=
  messages.foldl (fun input_text message =>
    input_text ++ message.role ++ ": " ++ message.content ++ "\n") ""

/-- `calculate_input_tokens(messages, encoding)` from token_tracking.py:
flatten the conversation, encode, return the token count. -/
def calculate_input_tokens (messages : List Message)
    (encoding : String → List Nat) : Nat :=
  (encoding (flattenConversation messages)).length

/-- `calculate_output_tokens(text, encoding)` from token_tracking.py:
encode the text and return the token count. -/
def calculate_output_tokens (text : String) (encoding : String → List Nat) : Nat :=
  (encoding text).length

/-- The spec's description of the flattened conversation text: the
concatenation, in message order, of the string `"role: content\n"` for each
message.  Stated with `String.join` over a `List.map`, to be compared with
the loop-based `flattenConversation` taken from the source. -/
def specFlattened (messages : List Message) : String :=
  String.join (messages.map (fun message =>
    message.role ++ ": " ++ message.content ++ "\n"))

/-- Helper: `String.join` of a cons peels off the head. -/
theorem string_join_cons (s : String) (l : List String) :
    String.join (s :: l) = s ++ String.join l := by
  apply String.ext
  simp [String.data_join]

/-- Helper: the flattening loop with an arbitrary accumulator equals the
accumulator followed by the spec-side join. -/
theorem flattenConversation_foldl_eq (messages : List Message) (acc : String) :
    messages.foldl (fun input_text message =>
      input_text ++ message.role ++ ": " ++ message.content ++ "\n") acc
      = acc ++ specFlattened messages := by
  induction messages generalizing acc with
  | nil =>
    apply String.ext
    simp [specFlattened, String.data_join]
  | cons m rest ih =>
    simp only [List.foldl_cons, specFlattened, List.map_cons]
    rw [ih, string_join_cons]
    simp [specFlattened, String.append_assoc]

/-- The loop-based flattening from the source agrees with the spec's
join-of-map description. -/
theorem flattenConversation_eq_specFlattened (messages : List Message) :
    flattenConversation messages = specFlattened messages := by
  have h := flattenConversation_foldl_eq messages ""
  simpa [flattenConversation] using h

/-!
## Backend response shape and first-choice extraction
(openai_client.py, web_scraper.py, multi_provider_llm.py, token_tracking.py)
-/

/-- The message object inside one choice of a chat-completions response. -/
structure RespMessage where
  content : String
deriving DecidableEq, Repr

/-- One element of the `choices` array of a chat-completions response. -/
structure Choice where
  message : RespMessage
deriving DecidableEq, Repr

/-- The `usage` object of a chat-completions response, read field by field
in token_tracking.py (`response.usage.prompt_tokens`,
`response.usage.completion_tokens`, `response.usage.total_tokens`). -/
structure Usage where
  prompt_tokens : Nat
  completion_tokens : Nat
  total_tokens : Nat
deriving DecidableEq, Repr

/-- A parsed chat-completions success body: a `choices` array and an
optional `usage` object (some backends omit usage telemetry). -/
structure ChatResponse where
  choices : List Choice
  usage : Option Usage
deriving DecidableEq, Repr

/-- The extraction `response.choices[0].message.content` performed by every
script.  `Option.none` models the Python `IndexError` on an empty `choices`
array. -/
def extractContent (response : ChatResponse) : Option String :=
  response.choices.head?.map (fun c => c.message.content)

/-!
## Provider Registry / Gateway

The spec's Gateway (`register` / `resolve`, §4.1) has no single function in
the source: the scripts perform ad-hoc per-provider key lookups
(multi_provider_llm.py lines 57-97) and construct clients directly.  The
operations below are therefore modelled from the spec; the placeholder
credential string `"ollama"` is taken from the source
(`OpenAI(api_key="ollama", base_url=ollama_url)` in multi_provider_llm.py
line 127 and openai_client.py line 76).
-/

/-- The spec's `authMode` enum: \x7bbearer-token, none,
synthetic-placeholder-token\x7d. -/
inductive AuthMode where
  | bearerToken
  | noCredential
  | syntheticPlaceholderToken
deriving DecidableEq, Repr

/-- Modelled from the spec: `ProviderConfig` (§3) — name, base URL,
auth mode and the name of the credential environment variable. -/
structure ProviderConfig where
  name : String
  baseURL : String
  authMode : AuthMode
  credentialEnvVar : String
deriving DecidableEq, Repr

/-- Modelled from the spec: the success value of `resolve` —
base URL plus auth header value or absent. -/
structure ResolvedProvider where
  baseURL : String
  authHeaderValue : Option String
deriving DecidableEq, Repr

/-- The resolution errors of the spec's error taxonomy (§7) relevant to the
Gateway. -/
inductive ResolveError where
  | UnknownProviderError
  | MissingCredentialError
deriving DecidableEq, Repr

/-- Modelled from the spec: `register` (§4.1) — adds or replaces the entry
for `config.name` in the registry table (re-registering a name overwrites). -/
def register (registry : List ProviderConfig) (config : ProviderConfig) :
    List ProviderConfig :=
  config :: registry.filter (fun c => c.name ≠ config.name)

/-- Modelled from the spec: `resolve` (§4.1) — looks up the named config and
reads the credential from the environment.  Fails with
`UnknownProviderError` for an unregistered name; fails with
`MissingCredentialError` when `authMode` is bearer-token and the environment
variable is unset or empty; succeeds without a credential check when
`authMode` is none (no auth header) or synthetic-placeholder-token (the
source's non-empty placeholder string `"ollama"` for the local loopback
host). -/
def resolve (registry : List ProviderConfig) (env : String → Option String)
    (name : String) : Except ResolveError ResolvedProvider :=
  match registry.find? (fun c => c.name == name) with
  | Option.none => Except.error ResolveError.UnknownProviderError
  | Option.some c =>
    match c.authMode with
    | AuthMode.noCredential => Except.ok ⟨c.baseURL, Option.none⟩
    | AuthMode.syntheticPlaceholderToken => Except.ok ⟨c.baseURL, Option.some "ollama"⟩
    | AuthMode.bearerToken =>
      match env c.credentialEnvVar with
      | Option.none => Except.error ResolveError.MissingCredentialError
      | Option.some v =>
        if v = "" then Except.error ResolveError.MissingCredentialError
        else Except.ok ⟨c.baseURL, Option.some v⟩

/-!
## Completion Invoker

The scripts each issue exactly one `chat.completions.create` call per
completion, in straight-line code with no retry loop (web_scraper.py
`summarize`, openai_client.py `test_openai`, token_tracking.py,
multi_provider_llm.py).  The normalized result type and the error taxonomy
are modelled from the spec (§4.2, §7); the call structure — one outbound
request, the answer read from the response — mirrors the source.  The
backend is modelled as a queue of pending HTTP responses: each outbound
round trip consumes exactly one element, so the queue left over after a
call measures how many round trips the call performed.
-/

/-- Modelled from the spec: `CompletionResult` (§3) — the normalized result:
`text` plus optional `usage`. -/
structure CompletionResult where
  text : String
  usage : Option Usage
deriving DecidableEq, Repr

/-- The Invoker errors of the spec's error taxonomy (§7). -/
inductive CompleteError where
  | TransportError
  | BackendError (status : Nat)
  | MalformedResponseError
deriving DecidableEq, Repr

/-- A raw HTTP response from the backend: status code and, when the body
parses as a chat-completions success body, the parsed body
(`Option.none` models an unparseable body). -/
structure HttpResponse where
  status : Nat
  body : Option ChatResponse
deriving DecidableEq, Repr

/-- Normalization of a parsed success body into a `CompletionResult`:
`text` is the first choice's message content (as in
`response.choices[0].message.content` throughout the source) and `usage` is
passed through unchanged when the backend supplies it.  `Option.none` when
the `choices` array is empty. -/
def normalizeResponse (response : ChatResponse) : Option CompletionResult :=
  (extractContent response).map (fun text => ⟨text, response.usage⟩)

/-- Modelled from the spec: `complete` (§4.2) executed against a queue of
pending backend responses.  The head of the queue is the response to the
single outbound request; the returned list is the queue left untouched
afterwards.  An empty queue models a network failure before any response
(`TransportError`).  A non-2xx status yields `BackendError` with that
status; a 2xx response whose body cannot be normalized yields
`MalformedResponseError`.  No branch consumes more than the head: the
layer performs no retry. -/
def complete (pending : List HttpResponse) :
    Except CompleteError CompletionResult × List HttpResponse :=
  match pending with
  | [] => (Except.error CompleteError.TransportError, [])
  | r :: rest =>
    if 200 ≤ r.status ∧ r.status ≤ 299 then
      match r.body with
      | Option.none => (Except.error CompleteError.MalformedResponseError, rest)
      | Option.some parsed =>
        match normalizeResponse parsed with
        | Option.none => (Except.error CompleteError.MalformedResponseError, rest)
        | Option.some result => (Except.ok result, rest)
    else
      (Except.error (CompleteError.BackendError r.status), rest)

/-!
## Conversation invariant and the conversations the scripts construct
-/

/-- The Conversation invariant of the spec (§3): the message sequence is
non-empty, contains at most one system-role message, and a system message,
when present, sits at index 0. -/
def validConversation (messages : List Message) : Prop :=
  messages ≠ [] ∧
  (messages.filter (fun m => m.role == "system")).length ≤ 1 ∧
  ∀ i, (h : i < messages.length) → (messages.get ⟨i, h⟩).role = "system" → i = 0

instance validConversation.decidable (messages : List Message) :
    Decidable (validConversation messages) := by
  unfold validConversation
  infer_instance

/-- Helper: a two-message conversation whose second message is not
system-role satisfies the invariant. -/
theorem validConversation_pair (m1 m2 : Message) (h2 : m2.role ≠ "system") :
    validConversation [m1, m2] := by
  refine ⟨by simp, ?_, ?_⟩
  · have h2' : (m2.role == "system") = false := beq_eq_false_iff_ne.mpr h2
    by_cases h1 : m1.role == "system" <;> simp [List.filter, h1, h2']
  · intro i h hsys
    match i, h with
    | 0, _ => rfl
    | 1, _ => exact absurd hsys h2

/-- An observable side effect of a script: a console print or an outbound
network call.  Used to trace the key-checking entry points
(`test_openai` in openai_client.py, `openai_api_token_tracking_example` in
token_tracking.py). -/
inductive Effect where
  | printed (s : String)
  | networkCall
deriving DecidableEq, Repr

namespace web_scraper

/-- `system_prompt` from web_scraper.py. -/
def system_prompt : String :=
  "\nYou are a financial research assistant expert at stock market trading. Your job is to analyze the contents of a website, and \nextract information that can signal bullish or bearish trading for the day. \n"

/-- `user_prompt_prefix` from web_scraper.py. -/
def user_prompt_prefix : String :=
  "\nHere are the contents of a website.\n\n"

/-- `messages_for(website)` from web_scraper.py: a system message followed
by one user message holding the prompt prefix plus the scraped website
text. -/
def messages_for (website : String) : List Message :=
  [⟨"system", system_prompt⟩, ⟨"user", user_prompt_prefix ++ website⟩]

/-- The body of `fetch_website_contents` from web_scraper.py after the HTTP
fetch and HTML parse, at character level.  `title` is
`soup.title.string` when a title tag exists (`Option.none` ↦ the literal
`"No title found"`); `body` is the extracted body text when the page has a
body (`Option.none` ↦ the empty string).  The result is
`(title + "\n\n" + text)[:2000]`. -/
def fetch_website_contents (title : Option (List Char)) (body : Option (List Char)) :
    List Char :=
  let t := title.getD (String.toList "No title found")
  let text := body.getD []
  (t ++ String.toList "\n\n" ++ text).take 2000

/-- A 1999-character page title, long enough that the title plus the
`"\n\n"` separator no longer fits inside the 2000-character truncation
window of `fetch_website_contents`. -/
def longTitle : List Char := List.replicate 1999 'a'

end web_scraper

namespace hello_world

/-- The first `messages` list of hello_world.py: a single user message. -/
def first_messages : List Message :=
  [⟨"user", "Hello, GPT! What is 1+1?"⟩]

/-- `system_prompt` from hello_world.py. -/
def system_prompt : String :=
  "\nYou are a humorous assistant that enjoys in proving customer service,\nYou will intereact with the user and figure out how to tell a joke that is friendly and non-offensive.\nYour job is to make the user feel happy. You will not tell the user that you are an AI assistant.\n"

/-- `user_prompt` from hello_world.py. -/
def user_prompt : String :=
  "\nHello! Today is a beautiful day!\n"

/-- The second `messages` list of hello_world.py (lines 80-83): system
message first, then the user message. -/
def second_messages : List Message :=
  [⟨"system", system_prompt⟩, ⟨"user", user_prompt⟩]

end hello_world

namespace token_tracking

/-- The `messages` conversation of `openai_api_token_tracking_example` in
token_tracking.py (lines 95-100). -/
def example_messages : List Message :=
  [⟨"system", "You are a helpful assistant"⟩,
   ⟨"user", "Hi! I'm Mkay!"⟩,
   ⟨"assistant", "Hi Mkay! How can I assist you today?"⟩,
   ⟨"user", "What's my name?"⟩]

/-- `openai_api_token_tracking_example()` from token_tracking.py, with its
side effects recorded in an explicit trace.  When `OPENAI_API_KEY` is
unset (or empty — Python's `not api_key`), the function prints
`"No API key was found!"` and returns with `None` and no network call;
otherwise it prints the key confirmation and the pre-call input-token
count, issues one `chat.completions.create` call, prints the response and
the output-token count, and returns the first choice's content. -/
def openai_api_token_tracking_example (env : String → Option String)
    (encoding : String → List Nat) (backendResponse : ChatResponse) :
    Option String × List Effect :=
  match env "OPENAI_API_KEY" with
  | Option.none => (Option.none, [Effect.printed "No API key was found!"])
  | Option.some api_key =>
    if api_key = "" then (Option.none, [Effect.printed "No API key was found!"])
    else
      let input_tokens := calculate_input_tokens example_messages encoding
      let response_content := extractContent backendResponse
      let output_line :=
        match response_content with
        | Option.none => []
        | Option.some text =>
          [Effect.printed ("Output tokens: " ++
            toString (calculate_output_tokens text encoding))]
      (response_content,
       [Effect.printed "API key found!",
        Effect.printed ("Input tokens: " ++ toString input_tokens),
        Effect.networkCall] ++ output_line)

end token_tracking

namespace openai_client

/-- The `messages` list passed by every test function of openai_client.py:
a single user message. -/
def fun_fact_messages : List Message :=
  [⟨"user", "Tell me a fun fact"⟩]

/-- `test_openai()` from openai_client.py, with its side effects recorded
in an explicit trace.  `env` models `os.getenv`; `backendResponse` is the
parsed body the backend would return to the single
`chat.completions.create` call.  When `OPENAI_API_KEY` is unset (or empty
— Python's `not api_key`), the function prints
`"No API key was found!"` and returns `None` without any network call;
otherwise it prints `"API key found!"`, issues one call and returns the
first choice's content. -/
def test_openai (env : String → Option String) (backendResponse : ChatResponse) :
    Option String × List Effect :=
  match env "OPENAI_API_KEY" with
  | Option.none => (Option.none, [Effect.printed "No API key was found!"])
  | Option.some api_key =>
    if api_key = "" then (Option.none, [Effect.printed "No API key was found!"])
    else
      (extractContent backendResponse,
       [Effect.printed "API key found!", Effect.networkCall])

end openai_client

namespace multi_provider

/-- `tell_a_joke` from multi_provider_llm.py: a single user message. -/
def tell_a_joke : List Message :=
  [⟨"user", "Tell a joke for a student on the journey to becoming an expert in LLM Engineering"⟩]

/-- The message list submitted through the native Anthropic SDK at the end
of multi_provider_llm.py (`client.messages.create(..., messages=[\x7b"role":
"user", "content": "tell a joke"\x7d], ...)`). -/
def anthropic_native_messages : List Message :=
  [⟨"user", "tell a joke"⟩]

end multi_provider

/-!
## Claim theorems
-/

/-- C2: for every conversation and tokenizer, `calculate_input_tokens`
(the spec's `estimateConversation`) equals `calculate_output_tokens` (the
spec's `estimate`) applied to the concatenation, in message order, of
`"role: content\n"` for each message; and the conversation
`[\x7bsystem, "S"\x7d, \x7buser, "Hi"\x7d]` flattens to exactly
`"system: S\nuser: Hi\n"`. -/
theorem C2_estimateConversation_eq_estimate_of_flattened
    (messages : List Message) (encoding : String → List Nat) :
    calculate_input_tokens messages encoding =
      calculate_output_tokens (specFlattened messages) encoding ∧
    flattenConversation [⟨"system", "S"⟩, ⟨"user", "Hi"⟩] = "system: S\nuser: Hi\n" := by
  constructor
  · unfold calculate_input_tokens calculate_output_tokens
    rw [flattenConversation_eq_specFlattened]
  · rfl

/-- C7: token estimation is deterministic — for every text, message list
and fixed encoding, two calls to `calculate_output_tokens` or to
`calculate_input_tokens` with identical inputs return the identical count
(both are pure functions of their arguments in the embedding, as the source
functions have no side effects). -/
theorem C7_estimation_deterministic (text : String) (messages : List Message)
    (encoding : String → List Nat) :
    calculate_output_tokens text encoding = calculate_output_tokens text encoding ∧
    calculate_input_tokens messages encoding = calculate_input_tokens messages encoding :=
  ⟨rfl, rfl⟩

/-- C4: the completion text handed to the caller is extracted from the first
element of the response's `choices` array (its message content), and is
independent of every later choice (and of the usage field). -/
theorem C4_text_from_first_choice (first : Choice) (rest rest2 : List Choice)
    (usage usage2 : Option Usage) :
    extractContent ⟨first :: rest, usage⟩ = Option.some first.message.content ∧
    extractContent ⟨first :: rest, usage⟩ = extractContent ⟨first :: rest2, usage2⟩ :=
  ⟨rfl, rfl⟩

/-- C5: every `complete` call performs at most one outbound round trip: it
consumes exactly the head of the pending-response queue whatever the
response is (no retry after a failed or non-2xx response); in particular a
stub backend answering HTTP 429 yields `BackendError 429` with the rest of
the queue untouched. -/
theorem C5_complete_single_round_trip (r : HttpResponse) (rest : List HttpResponse)
    (body : Option ChatResponse) :
    (complete (r :: rest)).2 = rest ∧
    complete (⟨429, body⟩ :: rest) =
      (Except.error (CompleteError.BackendError 429), rest) := by
  constructor
  · rcases r with ⟨st, bd⟩
    by_cases h : 200 ≤ st ∧ st ≤ 299
    · cases bd with
      | none => simp [complete, h]
      | some parsed =>
        cases hn : normalizeResponse parsed <;> simp [complete, h, hn]
    · simp [complete, h]
  · have h429 : ¬(200 ≤ (429 : Nat) ∧ (429 : Nat) ≤ 299) := by omega
    simp [complete, h429]

/-- C1: for every registered provider whose `authMode` is bearer-token and
whose credential environment variable is unset or empty, `resolve` fails
with `MissingCredentialError` — not success, and not
`UnknownProviderError`. -/
theorem C1_bearer_token_missing_credential (registry : List ProviderConfig)
    (env : String → Option String) (name : String) (c : ProviderConfig)
    (hfind : registry.find? (fun p => p.name == name) = Option.some c)
    (hmode : c.authMode = AuthMode.bearerToken)
    (henv : env c.credentialEnvVar = Option.none ∨
      env c.credentialEnvVar = Option.some "") :
    resolve registry env name = Except.error ResolveError.MissingCredentialError := by
  rcases c with ⟨nm, url, mode, envvar⟩
  simp only at hmode
  subst hmode
  rcases henv with h | h <;> simp [resolve, hfind, h]

/-- C1 witness: a concrete registry holding one bearer-token provider
`"openai"` with credential variable `OPENAI_API_KEY`, under an empty
environment, resolves to `MissingCredentialError`. -/
theorem C1_bearer_token_missing_credential_witness :
    [(⟨"openai", "https://api.openai.com/v1", AuthMode.bearerToken,
        "OPENAI_API_KEY"⟩ : ProviderConfig)].find?
        (fun p => p.name == "openai") =
      Option.some ⟨"openai", "https://api.openai.com/v1", AuthMode.bearerToken,
        "OPENAI_API_KEY"⟩ ∧
    (⟨"openai", "https://api.openai.com/v1", AuthMode.bearerToken,
        "OPENAI_API_KEY"⟩ : ProviderConfig).authMode = AuthMode.bearerToken ∧
    resolve [⟨"openai", "https://api.openai.com/v1", AuthMode.bearerToken,
        "OPENAI_API_KEY"⟩] (fun _ => Option.none) "openai" =
      Except.error ResolveError.MissingCredentialError := by
  refine ⟨by decide, rfl, ?_⟩
  exact C1_bearer_token_missing_credential _ (fun _ => Option.none) "openai"
    ⟨"openai", "https://api.openai.com/v1", AuthMode.bearerToken, "OPENAI_API_KEY"⟩
    (by decide) rfl (Or.inl rfl)

/-- C3: for every registered provider whose `authMode` is none or
synthetic-placeholder-token, `resolve` succeeds under every environment
(the credential variables may be set or unset), and in the
synthetic-placeholder-token case (the local Ollama loopback host) the
resolved auth value is a non-empty placeholder string. -/
theorem C3_no_credential_required_resolves (registry : List ProviderConfig)
    (env : String → Option String) (name : String) (c : ProviderConfig)
    (hfind : registry.find? (fun p => p.name == name) = Option.some c)
    (hmode : c.authMode = AuthMode.noCredential ∨
      c.authMode = AuthMode.syntheticPlaceholderToken) :
    (∃ rp, resolve registry env name = Except.ok rp) ∧
    (c.authMode = AuthMode.syntheticPlaceholderToken →
      ∃ s, s ≠ "" ∧
        resolve registry env name = Except.ok ⟨c.baseURL, Option.some s⟩) := by
  rcases c with ⟨nm, url, mode, envvar⟩
  rcases hmode with h | h <;> simp only at h <;> subst h
  · exact ⟨⟨⟨url, Option.none⟩, by simp [resolve, hfind]⟩, by intro h; cases h⟩
  · refine ⟨⟨⟨url, Option.some "ollama"⟩, by simp [resolve, hfind]⟩, ?_⟩
    intro _
    exact ⟨"ollama", by decide, by simp [resolve, hfind]⟩

/-- C3 witness: a concrete registry holding the provider `"local"` with
synthetic-placeholder-token auth, under an empty environment, resolves
successfully with the non-empty placeholder `"ollama"`. -/
theorem C3_no_credential_required_resolves_witness :
    [(⟨"local", "http://localhost:11434/v1", AuthMode.syntheticPlaceholderToken,
        ""⟩ : ProviderConfig)].find? (fun p => p.name == "local") =
      Option.some ⟨"local", "http://localhost:11434/v1",
        AuthMode.syntheticPlaceholderToken, ""⟩ ∧
    ((∃ rp, resolve [⟨"local", "http://localhost:11434/v1",
        AuthMode.syntheticPlaceholderToken, ""⟩]
        (fun _ => Option.none) "local" = Except.ok rp) ∧
      ((⟨"local", "http://localhost:11434/v1", AuthMode.syntheticPlaceholderToken,
          ""⟩ : ProviderConfig).authMode = AuthMode.syntheticPlaceholderToken →
        ∃ s, s ≠ "" ∧
          resolve [⟨"local", "http://localhost:11434/v1",
              AuthMode.syntheticPlaceholderToken, ""⟩]
            (fun _ => Option.none) "local" =
            Except.ok ⟨("http://localhost:11434/v1" : String), Option.some s⟩)) := by
  refine ⟨by decide, ?_⟩
  exact C3_no_credential_required_resolves _ (fun _ => Option.none) "local"
    ⟨"local", "http://localhost:11434/v1", AuthMode.syntheticPlaceholderToken, ""⟩
    (by decide) (Or.inr rfl)

/-- C6: for every backend payload reporting usage with
`total_tokens = prompt_tokens + completion_tokens`, the normalized
`CompletionResult` exposes the three values unchanged, so the identity
still holds on the result. -/
theorem C6_usage_identity_preserved (first : Choice) (rest : List Choice)
    (u : Usage) (h : u.total_tokens = u.prompt_tokens + u.completion_tokens) :
    ∃ result, normalizeResponse ⟨first :: rest, Option.some u⟩ = Option.some result ∧
      result.usage = Option.some u ∧
      ∀ u2, result.usage = Option.some u2 →
        u2.prompt_tokens = u.prompt_tokens ∧
        u2.completion_tokens = u.completion_tokens ∧
        u2.total_tokens = u.total_tokens ∧
        u2.total_tokens = u2.prompt_tokens + u2.completion_tokens := by
  refine ⟨⟨first.message.content, Option.some u⟩, rfl, rfl, ?_⟩
  intro u2 hu2
  have h2 : u = u2 := by simpa using hu2
  subst h2
  exact ⟨rfl, rfl, rfl, h⟩

/-- C6 witness: a concrete payload with usage 3 + 4 = 7 normalizes to a
result carrying the same usage values, on which the identity holds. -/
theorem C6_usage_identity_preserved_witness :
    (⟨3, 4, 7⟩ : Usage).total_tokens =
      (⟨3, 4, 7⟩ : Usage).prompt_tokens + (⟨3, 4, 7⟩ : Usage).completion_tokens ∧
    ∃ result,
      normalizeResponse ⟨[⟨⟨"hi"⟩⟩], Option.some ⟨3, 4, 7⟩⟩ = Option.some result ∧
      result.usage = Option.some ⟨3, 4, 7⟩ ∧
      ∀ u2, result.usage = Option.some u2 →
        u2.prompt_tokens = (⟨3, 4, 7⟩ : Usage).prompt_tokens ∧
        u2.completion_tokens = (⟨3, 4, 7⟩ : Usage).completion_tokens ∧
        u2.total_tokens = (⟨3, 4, 7⟩ : Usage).total_tokens ∧
        u2.total_tokens = u2.prompt_tokens + u2.completion_tokens :=
  ⟨by decide, C6_usage_identity_preserved ⟨⟨"hi"⟩⟩ [] ⟨3, 4, 7⟩ (by decide)⟩

/-- C8: every conversation the scripts construct and submit to a backend
satisfies the Conversation invariant — non-empty, at most one system
message, system message (when present) at index 0: the two-message
system/user conversation of web_scraper.py (for every scraped website
text), the four-message conversation of token_tracking.py, both message
lists of hello_world.py, the user-only list of openai_client.py, the
user-only `tell_a_joke` of multi_provider_llm.py, and the user-only list
multi_provider_llm.py submits through the native Anthropic SDK. -/
theorem C8_constructed_conversations_valid :
    (∀ website, validConversation (web_scraper.messages_for website)) ∧
    validConversation token_tracking.example_messages ∧
    validConversation hello_world.first_messages ∧
    validConversation hello_world.second_messages ∧
    validConversation openai_client.fun_fact_messages ∧
    validConversation multi_provider.tell_a_joke ∧
    validConversation multi_provider.anthropic_native_messages := by
  refine ⟨?_, ?_, ?_, ?_, ?_, ?_, ?_⟩
  · intro website
    exact validConversation_pair _ _ (show ("user" : String) ≠ "system" by decide)
  · decide
  · decide
  · decide
  · decide
  · decide
  · decide

/-- C10: when `OPENAI_API_KEY` is unset, `test_openai` (openai_client.py)
and `openai_api_token_tracking_example` (token_tracking.py) both return
`None` after printing `"No API key was found!"`, with no network call and
no other effect — the missing credential is not raised as an error. -/
theorem C10_missing_key_prints_and_returns_none (env : String → Option String)
    (encoding : String → List Nat) (backendResponse : ChatResponse)
    (h : env "OPENAI_API_KEY" = Option.none) :
    openai_client.test_openai env backendResponse =
      (Option.none, [Effect.printed "No API key was found!"]) ∧
    Effect.networkCall ∉ (openai_client.test_openai env backendResponse).2 ∧
    token_tracking.openai_api_token_tracking_example env encoding backendResponse =
      (Option.none, [Effect.printed "No API key was found!"]) ∧
    Effect.networkCall ∉
      (token_tracking.openai_api_token_tracking_example env encoding backendResponse).2 := by
  refine ⟨?_, ?_, ?_, ?_⟩ <;>
    simp [openai_client.test_openai,
      token_tracking.openai_api_token_tracking_example, h]

/-- C10 witness: under the concrete empty environment both entry points
return `None` with only the warning print in the trace. -/
theorem C10_missing_key_prints_and_returns_none_witness :
    (fun _ : String => (Option.none : Option String)) "OPENAI_API_KEY" =
      Option.none ∧
    (openai_client.test_openai (fun _ => Option.none) ⟨[], Option.none⟩ =
      (Option.none, [Effect.printed "No API key was found!"]) ∧
    Effect.networkCall ∉
      (openai_client.test_openai (fun _ => Option.none) ⟨[], Option.none⟩).2 ∧
    token_tracking.openai_api_token_tracking_example (fun _ => Option.none)
        (fun _ => []) ⟨[], Option.none⟩ =
      (Option.none, [Effect.printed "No API key was found!"]) ∧
    Effect.networkCall ∉
      (token_tracking.openai_api_token_tracking_example (fun _ => Option.none)
        (fun _ => []) ⟨[], Option.none⟩).2) :=
  ⟨rfl, C10_missing_key_prints_and_returns_none (fun _ => Option.none)
    (fun _ => []) ⟨[], Option.none⟩ rfl⟩

/-- C9 counterexample: for a page whose title is 1999 characters long and
which has no body, the result of `fetch_website_contents` does not begin
with the title followed by `"\n\n"` — the 2000-character truncation is
applied after the concatenation, so the separator is cut off. -/
theorem C9_fetch_counterexample :
    ¬ ((web_scraper.fetch_website_contents (Option.some web_scraper.longTitle)
          Option.none).take
            (web_scraper.longTitle ++ String.toList "\n\n").length
        = web_scraper.longTitle ++ String.toList "\n\n") := by
  intro h
  have hlen := congrArg List.length h
  have hsep : (String.toList "\n\n").length = 2 := rfl
  simp only [web_scraper.fetch_website_contents, web_scraper.longTitle,
    Option.getD_some, Option.getD_none, List.length_take, List.length_append,
    List.length_replicate, List.append_nil, hsep] at hlen
  omega

/-- C9 amended: `fetch_website_contents` returns the first 2000 characters
of title-plus-`"\n\n"`-plus-body-text.  Hence the result has length at most
2000; it begins with the title (or `"No title found"`) followed by `"\n\n"`
whenever that prefix fits in the 2000-character window; and when the page
has no body the result is the title-plus-separator alone, truncated to
2000 characters. -/
theorem C9_fetch_shape_amended (title body : Option (List Char)) :
    (web_scraper.fetch_website_contents title body).length ≤ 2000 ∧
    ((title.getD (String.toList "No title found") ++ String.toList "\n\n").length
        ≤ 2000 →
      (web_scraper.fetch_website_contents title body).take
          (title.getD (String.toList "No title found") ++
            String.toList "\n\n").length
        = title.getD (String.toList "No title found") ++ String.toList "\n\n") ∧
    (body = Option.none →
      web_scraper.fetch_website_contents title body
        = (title.getD (String.toList "No title found") ++
            String.toList "\n\n").take 2000) := by
  refine ⟨?_, ?_, ?_⟩
  · simp [web_scraper.fetch_website_contents, List.length_take]
  · intro hfit
    unfold web_scraper.fetch_website_contents
    rw [List.take_take, Nat.min_eq_left hfit, List.append_assoc,
      List.take_append_eq_append_take]
    simp
  · intro hb
    subst hb
    simp [web_scraper.fetch_website_contents]

/-- C9 amended witness: for a one-character title `"T"` and no body, the
result is within 2000 characters, begins with `"T\n\n"`, and equals the
truncated title-plus-separator. -/
theorem C9_fetch_shape_amended_witness :
    (web_scraper.fetch_website_contents (Option.some (String.toList "T"))
        Option.none).length ≤ 2000 ∧
    (web_scraper.fetch_website_contents (Option.some (String.toList "T"))
        Option.none).take
        ((Option.some (String.toList "T")).getD (String.toList "No title found") ++
          String.toList "\n\n").length
      = (Option.some (String.toList "T")).getD (String.toList "No title found") ++
          String.toList "\n\n" ∧
    web_scraper.fetch_website_contents (Option.some (String.toList "T"))
        Option.none
      = ((Option.some (String.toList "T")).getD (String.toList "No title found") ++
          String.toList "\n\n").take 2000 := by
  have h := C9_fetch_shape_amended (Option.some (String.toList "T")) Option.none
  exact ⟨h.1, h.2.1 (by decide), h.2.2 rfl⟩

end LLMEng
